import Mathlib

/-!
Verification of the vpub-market marketplace backend against its specification.

The development shallowly embeds the parts of the repository that the claims
touch: the JSON-RPC client wrapper (`src/api/services/CoreRpcService.ts`), the
test-data generator (`TestDataService`, `src/unnamed/part_000`), the content
hash utility and the bid action pipeline (modelled from the spec where the
implementation file is not part of the source snapshot).

External collaborators (the JavaScript runtime's `JSON.parse`/`JSON.stringify`,
the SHA-256 digest, the Faker/coin-daemon randomness) are passed in as explicit
parameters or environment records, so all definitions are executable.
-/

namespace VpubMarket

/-! ## JavaScript values

A small model of the JavaScript values flowing through the JSON-RPC layer.
The mutual shape keeps lists and object field lists as their own inductives so
that all functions are structurally recursive. -/

mutual

/-- JavaScript values as seen by `CoreRpcService`.  `jsUndefined` models the value of
a missing object member (`undefined`). -/
inductive JsVal where
  | jsUndefined
  | null
  | bool (b : Bool)
  | num (n : Int)
  | str (s : String)
  | arr (xs : JsList)
  | obj (fs : JsFields)

/-- A JavaScript array's elements. -/
inductive JsList where
  | nil
  | cons (hd : JsVal) (tl : JsList)

/-- A JavaScript object's fields, in insertion order. -/
inductive JsFields where
  | nil
  | cons (k : String) (v : JsVal) (tl : JsFields)

end

/-- JavaScript truthiness of a value, as used by `if (x)` and `x ? a : b`. -/
def JsVal.truthy : JsVal → Bool
  | .jsUndefined => false
  | .null => false
  | .bool b => b
  | .num n => n != 0
  | .str s => s != ""
  | .arr _ => true
  | .obj _ => true

/-- Look a key up in an object's field list (first binding wins; objects coming
out of `JSON.parse` have unique keys). -/
def JsFields.lookup : JsFields → String → JsVal
  | .nil, _ => .jsUndefined
  | .cons k v tl, key => if k = key then v else tl.lookup key

/-- JavaScript member access `v[key]`: `undefined` on non-objects and missing
members. -/
def JsVal.getField : JsVal → String → JsVal
  | .obj fs, key => fs.lookup key
  | _, _ => .jsUndefined

/-- Whether an object value has a member named `key` (even one whose value is
`null`), i.e. whether the JSON text contained that member. -/
def JsFields.hasKey : JsFields → String → Bool
  | .nil, _ => false
  | .cons k _ tl, key => k = key || tl.hasKey key

/-- Whether a JavaScript value is an object containing the member `key`. -/
def JsVal.hasMember : JsVal → String → Bool
  | .obj fs, key => fs.hasKey key
  | _, _ => false

mutual

/-- A model of `JSON.stringify` on `JsVal`.  String escaping is modelled as
plain quoting, which is exact for strings without characters that JSON must
escape; `undefined` (which `JSON.stringify` does not produce inside the values
we instantiate) is rendered as `null`. -/
def JsVal.jsStringify : JsVal → String
  | .jsUndefined => "null"
  | .null => "null"
  | .bool true => "true"
  | .bool false => "false"
  | .num n => toString n
  | .str s => "\"" ++ s ++ "\""
  | .arr xs => "[" ++ JsList.stringifyElems xs ++ "]"
  | .obj fs => "\x7b" ++ JsFields.stringifyFields fs ++ "\x7d"

/-- Comma-separated rendering of array elements for `jsStringify`. -/
def JsList.stringifyElems : JsList → String
  | .nil => ""
  | .cons x .nil => x.jsStringify
  | .cons x (.cons y tl) => x.jsStringify ++ "," ++ JsList.stringifyElems (.cons y tl)

/-- Comma-separated rendering of object fields for `jsStringify`. -/
def JsFields.stringifyFields : JsFields → String
  | .nil => ""
  | .cons k v .nil => "\"" ++ k ++ "\":" ++ v.jsStringify
  | .cons k v (.cons k2 v2 tl) =>
      "\"" ++ k ++ "\":" ++ v.jsStringify ++ "," ++ JsFields.stringifyFields (.cons k2 v2 tl)

end

/-! ## CoreRpcService.call (`src/src/api/services/CoreRpcService.ts`, lines 500-549) -/

/-- Name and message of a thrown JavaScript error, as read by the catch handler
of `CoreRpcService.call` (`error.name`, `error.message`). -/
structure JsError where
  name : String
  message : String
  deriving DecidableEq

/-- An HTTP response as delivered by `WebRequest.post`. -/
structure WebResponse where
  statusCode : Int
  statusMessage : String
  content : String
  deriving DecidableEq

/-- Outcome of the `WebRequest.post` transport: the promise either rejects with
an error or resolves with an HTTP response. -/
inductive WebOutcome where
  | failure (e : JsError)
  | success (resp : WebResponse)
  deriving DecidableEq

/-- The observable result of `CoreRpcService.call`: a normal return of the
JSON-RPC `result` member, a thrown `HttpException status message` (the message
is the parsed content or the HTTP status message), or a thrown
`InternalServerException body`. -/
inductive CallResult where
  | ok (result : JsVal)
  | httpEx (status : Int) (message : JsVal ⊕ String)
  | internalEx (body : List JsVal)

/-- True exactly on the `ok` (normal return) case. -/
def CallResult.isOk : CallResult → Bool
  | .ok _ => true
  | _ => false

/-- True exactly when an `HttpException` is thrown. -/
def CallResult.isHttpEx : CallResult → Bool
  | .httpEx _ _ => true
  | _ => false

/-- True exactly when an `InternalServerException` is thrown. -/
def CallResult.isInternalEx : CallResult → Bool
  | .internalEx _ => true
  | _ => false

/-- Model of `CoreRpcService.call` (lines 500-549).  `parse` stands for the
JavaScript `JSON.parse`, returning the parsed value or the thrown error.
Following the source: a non-200 status throws `HttpException(status, message)`
where `message` is `JSON.parse(content)` when the content string is truthy and
the status message otherwise (a parse failure there is caught by the catch
handler and wrapped in an `InternalServerException`); on a 200 status the
content is parsed, a truthy `error` member throws
`InternalServerException([error.code, error.message])`, and otherwise the
`result` member is returned.  The catch handler rethrows the two exception
types unchanged and wraps every other error in
`InternalServerException([error.name, error.message])`. -/
def call (parse : String → Except JsError JsVal) (o : WebOutcome) : CallResult :=
  match o with
  | .failure e => .internalEx [.str e.name, .str e.message]
  | .success r =>
    if r.statusCode ≠ 200 then
      if r.content ≠ "" then
        match parse r.content with
        | .ok m => .httpEx r.statusCode (Sum.inl m)
        | .error e => .internalEx [.str e.name, .str e.message]
      else
        .httpEx r.statusCode (Sum.inr r.statusMessage)
    else
      match parse r.content with
      | .error e => .internalEx [.str e.name, .str e.message]
      | .ok j =>
        if (j.getField "error").truthy then
          .internalEx [(j.getField "error").getField "code", (j.getField "error").getField "message"]
        else
          .ok (j.getField "result")

/-! ## CoreRpcService.signMessage / verifyMessage (lines 482-498)

Both methods canonicalize the message as
`JSON.stringify(message).split('').sort().toString()`.  `split('')` yields the
list of one-character strings, `sort()` (with no comparator) sorts them by
code-unit order, and `Array.prototype.toString` joins with commas.  The model
keeps `JSON.stringify` abstract as a `stringify` parameter. -/

/-- The signable string computed inside `signMessage` (line 483). -/
def signMessageSignable {α : Type} (stringify : α → String) (message : α) : String :=
  String.intercalate ","
    (((stringify message).toList.insertionSort (· ≤ ·)).map (fun c => String.singleton c))

/-- The signable string computed inside `verifyMessage` (line 496); the source
repeats the same expression as in `signMessage`. -/
def verifyMessageSignable {α : Type} (stringify : α → String) (message : α) : String :=
  String.intercalate ","
    (((stringify message).toList.insertionSort (· ≤ ·)).map (fun c => String.singleton c))

/-- The daemon call issued by `signMessage`: method name and parameter list. -/
def signMessage {α : Type} (stringify : α → String) (address : String) (message : α) :
    String × List String :=
  ("signmessage", [address, signMessageSignable stringify message])

/-- The daemon call issued by `verifyMessage`: method name and parameter list. -/
def verifyMessage {α : Type} (stringify : α → String) (address : String) (signature : String)
    (message : α) : String × List String :=
  ("verifymessage", [address, signature, verifyMessageSignable stringify message])

/-! ## Domain enums -/

/-- The `BidMessageType` enum of bid actions. -/
inductive BidMessageType where
  | MPA_BID
  | MPA_ACCEPT
  | MPA_REJECT
  | MPA_CANCEL
  deriving DecidableEq

/-- The `CreatableModel` enum of models the `TestDataService` can create or
generate, together with `other` for any value outside the enum (the request's
`model` field is a plain string at runtime). -/
inductive CreatableModel where
  | LISTINGITEMTEMPLATE
  | LISTINGITEM
  | ACTIONMESSAGE
  | PROFILE
  | ITEMCATEGORY
  | FAVORITEITEM
  | ITEMINFORMATION
  | BID
  | PAYMENTINFORMATION
  | ITEMIMAGE
  | ORDER
  | PROPOSAL
  | other (value : String)
  deriving DecidableEq

/-- The `HashableObjectType` enum values used by the sources at hand. -/
inductive HashableObjectType where
  | LISTINGITEM
  | LISTINGITEMTEMPLATE
  | PROPOSAL_CREATEREQUEST
  deriving DecidableEq

/-- The `ProposalType` enum. -/
inductive ProposalType where
  | PUBLIC_VOTE
  | ITEM_VOTE
  deriving DecidableEq

/-- The `ItemVote` enum. -/
inductive ItemVote where
  | KEEP
  | REMOVE
  deriving DecidableEq

/-- The string value of an `ItemVote` member, as produced by `toString()`. -/
def ItemVote.text : ItemVote → String
  | .KEEP => "KEEP"
  | .REMOVE => "REMOVE"

/-! ## The content hash utility

`ObjectHash` lives in `src/core/helpers/ObjectHash.ts`, which is not part of
the source snapshot; only its call sites are.  It is therefore modelled from
the spec: "Hash utility: canonicalizes a domain object into a deterministic
content hash (listing, template, proposal) used as a natural key across the
peer network (since primary-key IDs are local to each node)."  A listing item
and a listing item template canonicalize to the same hashable view of their
shared content (the spec and the integration test
`test/integration/messageprocessors/BidMessage.test.ts`, lines 122-131, use
the hash as the key shared between a template and its listing), so volatile
local fields (primary-key ids, timestamps, relations) do not enter the hash.
The SHA-256 digest itself is kept abstract as a `digest` parameter. -/

/-- The content of a listing item or listing item template that enters the
hash: canonical serializations of the item information, payment information,
messaging information and listing item objects subtrees. -/
structure HashableContent where
  itemInformation : String
  paymentInformation : String
  messagingInformation : String
  listingItemObjects : String
  deriving DecidableEq

/-- The proposal fields that enter the `PROPOSAL_CREATEREQUEST` hash. -/
structure ProposalData where
  submitter : String
  type : ProposalType
  item : Option String
  title : String
  description : String
  timeStart : ℚ
  postedAt : ℚ
  receivedAt : ℚ
  expiredAt : ℚ
  deriving DecidableEq

/-- A domain object in one of its hashable views. -/
inductive HashableObject where
  | listing (c : HashableContent)
  | proposal (p : ProposalData)
  deriving DecidableEq

/-- Canonical string of a listing's hashable content. -/
def listingCanonical (c : HashableContent) : String :=
  "item:" ++ c.itemInformation ++ ";payment:" ++ c.paymentInformation ++
    ";messaging:" ++ c.messagingInformation ++ ";objects:" ++ c.listingItemObjects

/-- String value of a `ProposalType` member. -/
def ProposalType.text : ProposalType → String
  | .PUBLIC_VOTE => "PUBLIC_VOTE"
  | .ITEM_VOTE => "ITEM_VOTE"

/-- Canonical string of a proposal's hashable data. -/
def proposalCanonical (p : ProposalData) : String :=
  String.intercalate "|"
    [p.submitter, p.type.text, p.item.getD "null", p.title, p.description,
      toString p.timeStart, toString p.postedAt, toString p.receivedAt, toString p.expiredAt]

/-- Modelled from the spec: the canonicalization step of `ObjectHash.getHash`.
A listing item and a listing item template canonicalize identically (the hash
is their shared natural key); a type/object mismatch, which the call sites
never produce, canonicalizes to the empty string. -/
def canonicalize : HashableObjectType → HashableObject → String
  | .LISTINGITEM, .listing c => listingCanonical c
  | .LISTINGITEMTEMPLATE, .listing c => listingCanonical c
  | .PROPOSAL_CREATEREQUEST, .proposal p => proposalCanonical p
  | _, _ => ""

/-- Modelled from the spec: `ObjectHash.getHash` digests the canonical string
of the object's hashable view; `digest` stands for the SHA-256 hash. -/
def ObjectHash.getHash (digest : String → String) (t : HashableObjectType)
    (o : HashableObject) : String :=
  digest (canonicalize t o)

/-! ## Stored entities and the database

The ORM-backed tables are modelled as lists of records inside a single `Db`
record; `nextId` models the primary-key autoincrement counter. -/

/-- A persisted profile (the fields the claims touch). -/
structure StoredProfile where
  id : Nat
  address : String
  deriving DecidableEq

/-- A persisted listing item template. -/
structure StoredListingItemTemplate where
  id : Nat
  profile_id : Nat
  itemInformation : String
  paymentInformation : String
  messagingInformation : String
  listingItemObjects : String
  hash : String
  deriving DecidableEq

/-- A persisted listing item. -/
structure StoredListingItem where
  id : Nat
  seller : String
  market_id : Nat
  listing_item_template_id : Option Nat
  itemInformation : String
  paymentInformation : String
  messagingInformation : String
  listingItemObjects : String
  expiryTime : Nat
  postedAt : Nat
  expiredAt : Nat
  receivedAt : Nat
  hash : String
  deriving DecidableEq

/-- An `AddressCreateRequest` (Faker-generated shipping address). -/
structure AddressCreateRequest where
  firstName : String
  lastName : String
  title : String
  addressLine1 : String
  addressLine2 : String
  zipCode : String
  city : String
  state : String
  country : String
  profile_id : Option Nat
  deriving DecidableEq

/-- A `BidDataCreateRequest` key/value pair.  The single numeric value in the
generator's constant list is rendered as its decimal literal. -/
structure BidDataCreateRequest where
  dataId : String
  dataValue : String
  deriving DecidableEq

/-- A persisted bid. -/
structure StoredBid where
  id : Nat
  action : BidMessageType
  bidder : String
  listing_item_id : Option Nat
  address : AddressCreateRequest
  bidDatas : List BidDataCreateRequest
  deriving DecidableEq

/-- An order create request as produced by `OrderFactory.getModelFromBid`:
its order items plus the remaining factory-produced fields kept abstract. -/
structure OrderCreateRequest where
  orderItems : List String
  payload : String
  deriving DecidableEq

/-- A persisted order: its id and the create request it was built from. -/
structure StoredOrder where
  id : Nat
  req : OrderCreateRequest
  deriving DecidableEq

/-- The database: one list per table plus the autoincrement counter and the
ids of the default profile and market seeded by `clean`. -/
structure Db where
  defaultProfileId : Nat
  defaultMarketId : Nat
  profiles : List StoredProfile
  listingItemTemplates : List StoredListingItemTemplate
  listingItems : List StoredListingItem
  bids : List StoredBid
  orders : List StoredOrder
  nextId : Nat
  deriving DecidableEq

/-- The address of the default profile (`profileService.getDefault()`). -/
def Db.defaultProfileAddress (db : Db) : String :=
  ((db.profiles.find? (fun p => p.id == db.defaultProfileId)).map (fun p => p.address)).getD ""

/-- Well-formedness of the autoincrement counter: every persisted bid has an id
below the next free id (what the ORM's autoincrement guarantees). -/
def Db.Wf (db : Db) : Prop :=
  ∀ b ∈ db.bids, b.id < db.nextId

/-! ## Domain services (create / find), modelled from the spec

The domain service classes are not part of the source snapshot; per the spec
each "owns one ORM-mapped entity, offering create/find/update/delete", and the
create of a listing item or template stores the object's content hash
(`ObjectHash.getHash`) alongside it. -/

/-- Errors surfaced by the services (`NotFoundException` on a failed find). -/
inductive MarketError where
  | notFound
  deriving DecidableEq

/-- Modelled from the spec: `ListingItemService.findOneByHash` — hash-based
lookup of a listing item. -/
def listingItemServiceFindOneByHash (db : Db) (h : String) : Option StoredListingItem :=
  db.listingItems.find? (fun li => li.hash == h)

/-- Modelled from the spec: `ListingItemTemplateService.findOneByHash`. -/
def listingItemTemplateServiceFindOneByHash (db : Db) (h : String) :
    Option StoredListingItemTemplate :=
  db.listingItemTemplates.find? (fun t => t.hash == h)

/-- Modelled from the spec: `BidService.findOne` — primary-key lookup. -/
def bidServiceFindOne (db : Db) (i : Nat) : Option StoredBid :=
  db.bids.find? (fun b => b.id == i)

/-- A `ListingItemTemplateCreateRequest` (the fields the claims touch). -/
structure ListingItemTemplateCreateRequest where
  itemInformation : String
  paymentInformation : String
  messagingInformation : String
  listingItemObjects : String
  profile_id : Nat
  deriving DecidableEq

/-- A `ListingItemCreateRequest` (the fields the claims touch). -/
structure ListingItemCreateRequest where
  seller : String
  market_id : Nat
  listing_item_template_id : Option Nat := none
  itemInformation : String
  paymentInformation : String
  messagingInformation : String
  listingItemObjects : String
  expiryTime : Nat
  postedAt : Nat
  expiredAt : Nat
  receivedAt : Nat
  deriving DecidableEq

/-- A `BidCreateRequest` (the fields the claims touch).  `listing_item_id`
starts out unset, exactly as the field is absent until assigned. -/
structure BidCreateRequest where
  action : BidMessageType
  address : AddressCreateRequest
  bidder : String
  bidDatas : List BidDataCreateRequest
  listing_item_id : Option Nat := none
  deriving DecidableEq

/-- The hashable content of a template create request. -/
def ListingItemTemplateCreateRequest.content (req : ListingItemTemplateCreateRequest) :
    HashableContent :=
  ⟨req.itemInformation, req.paymentInformation, req.messagingInformation, req.listingItemObjects⟩

/-- The hashable content of a listing item create request. -/
def ListingItemCreateRequest.content (req : ListingItemCreateRequest) : HashableContent :=
  ⟨req.itemInformation, req.paymentInformation, req.messagingInformation, req.listingItemObjects⟩

/-- The hashable content of a persisted template. -/
def StoredListingItemTemplate.content (t : StoredListingItemTemplate) : HashableContent :=
  ⟨t.itemInformation, t.paymentInformation, t.messagingInformation, t.listingItemObjects⟩

/-- Modelled from the spec: `ListingItemTemplateService.create` persists the
request and stores the content hash computed by `ObjectHash.getHash`. -/
def listingItemTemplateServiceCreate (digest : String → String) (db : Db)
    (req : ListingItemTemplateCreateRequest) : StoredListingItemTemplate × Db :=
  let t : StoredListingItemTemplate :=
    { id := db.nextId
      profile_id := req.profile_id
      itemInformation := req.itemInformation
      paymentInformation := req.paymentInformation
      messagingInformation := req.messagingInformation
      listingItemObjects := req.listingItemObjects
      hash := ObjectHash.getHash digest .LISTINGITEMTEMPLATE (.listing req.content) }
  (t, { db with listingItemTemplates := db.listingItemTemplates ++ [t], nextId := db.nextId + 1 })

/-- Modelled from the spec: `ListingItemService.create` persists the request
and stores the content hash computed by `ObjectHash.getHash`. -/
def listingItemServiceCreate (digest : String → String) (db : Db)
    (req : ListingItemCreateRequest) : StoredListingItem × Db :=
  let li : StoredListingItem :=
    { id := db.nextId
      seller := req.seller
      market_id := req.market_id
      listing_item_template_id := req.listing_item_template_id
      itemInformation := req.itemInformation
      paymentInformation := req.paymentInformation
      messagingInformation := req.messagingInformation
      listingItemObjects := req.listingItemObjects
      expiryTime := req.expiryTime
      postedAt := req.postedAt
      expiredAt := req.expiredAt
      receivedAt := req.receivedAt
      hash := ObjectHash.getHash digest .LISTINGITEM (.listing req.content) }
  (li, { db with listingItems := db.listingItems ++ [li], nextId := db.nextId + 1 })

/-- Modelled from the spec: `BidService.create` persists the bid. -/
def bidServiceCreate (db : Db) (req : BidCreateRequest) : StoredBid × Db :=
  let b : StoredBid :=
    { id := db.nextId
      action := req.action
      bidder := req.bidder
      listing_item_id := req.listing_item_id
      address := req.address
      bidDatas := req.bidDatas }
  (b, { db with bids := db.bids ++ [b], nextId := db.nextId + 1 })

/-- Modelled from the spec: `OrderService.create` persists the order. -/
def orderServiceCreate (db : Db) (req : OrderCreateRequest) : StoredOrder × Db :=
  let o : StoredOrder := { id := db.nextId, req := req }
  (o, { db with orders := db.orders ++ [o], nextId := db.nextId + 1 })

/-! ## TestDataService generator parameters (`src/unnamed/part_000`)

The `Generate*Params` request classes are not part of the snapshot; their
fields are modelled from their uses in `TestDataService`.  Optional fields are
`Option`s, with `none` for an unset (falsy) value; the generator's truthiness
checks (`x ? x : y`) become `Option.getD`.  The Faker- and coin-daemon-supplied
randomness is passed in through environment records. -/

/-- Parameters of `generateListingItemTemplates`.  The four content flags
select between generated content and an empty object/array; sub-flags such as
`generateShippingDestinations` only shape the generated content and are
absorbed into the environment's content strings. -/
structure GenerateListingItemTemplateParams where
  generateItemInformation : Bool
  generatePaymentInformation : Bool
  generateMessagingInformation : Bool
  generateListingItemObjects : Bool
  generateListingItem : Bool
  profileId : Option Nat
  marketId : Option Nat
  deriving DecidableEq

/-- Modelled from the spec: the defaults of `new
GenerateListingItemTemplateParams()` — generate all content parts, do not
generate a listing item, no explicit profile or market. -/
def GenerateListingItemTemplateParams.init : GenerateListingItemTemplateParams :=
  { generateItemInformation := true
    generatePaymentInformation := true
    generateMessagingInformation := true
    generateListingItemObjects := true
    generateListingItem := false
    profileId := none
    marketId := none }

/-- Parameters of `generateListingItems`. -/
structure GenerateListingItemParams where
  generateItemInformation : Bool
  generatePaymentInformation : Bool
  generateMessagingInformation : Bool
  generateListingItemObjects : Bool
  listingItemTemplateHash : Option String
  seller : Option String
  deriving DecidableEq

/-- Modelled from the spec: the defaults of `new GenerateListingItemParams()`. -/
def GenerateListingItemParams.init : GenerateListingItemParams :=
  { generateItemInformation := true
    generatePaymentInformation := true
    generateMessagingInformation := true
    generateListingItemObjects := true
    listingItemTemplateHash := none
    seller := none }

/-- Parameters of `generateBids`. -/
structure GenerateBidParams where
  generateListingItemTemplate : Bool
  generateListingItem : Bool
  listingItemHash : Option String
  action : Option BidMessageType
  bidder : Option String
  listingItemSeller : Option String
  deriving DecidableEq

/-- Parameters of `generateOrders`. -/
structure GenerateOrderParams where
  generateListingItemTemplate : Bool
  generateListingItem : Bool
  generateOrderItem : Bool
  generateBid : Bool
  listingItemSeller : Option String
  bidId : Nat
  deriving DecidableEq

/-- Parameters of `generateProposals`. -/
structure GenerateProposalParams where
  generateListingItemTemplate : Bool
  generateListingItem : Bool
  listingItemHash : Option String
  generatePastProposal : Bool
  voteCount : Nat
  submitter : Option String
  deriving DecidableEq

/-- The canonical serialization of an empty JavaScript object. -/
def emptyObjectContent : String := "\x7b\x7d"

/-- The canonical serialization of an empty JavaScript array. -/
def emptyArrayContent : String := "[]"

/-- Faker-generated content for one template or listing item: canonical
serializations of the generated subtrees. -/
structure TemplateGenEnv where
  itemInformation : String
  paymentInformation : String
  messagingInformation : String
  listingItemObjects : String
  deriving DecidableEq

/-- Environment of one `generateListingItemData` call: the generated content
plus the seller address obtained from `coreRpcService.getNewAddress()`. -/
structure ListingGenEnv where
  itemInformation : String
  paymentInformation : String
  messagingInformation : String
  listingItemObjects : String
  newAddress : String
  deriving DecidableEq

/-- Environment of one `generateBidData` call: the Faker-generated shipping
address and the bidder address from `coreRpcService.getNewAddress()`. -/
structure BidGenEnv where
  address : AddressCreateRequest
  newAddress : String
  deriving DecidableEq

/-! ## generateListingItemTemplates (part_000, lines 332-386 and 1123-1149) -/

/-- `generateListingItemTemplateData` (lines 1123-1149): each content part is
the generated data when its flag is set and an empty object/array otherwise;
the profile is the one of `generateParams.profileId`, or the default profile
when that is `null` (the primary-key lookup resolves the id it is given). -/
def generateListingItemTemplateData (env : TemplateGenEnv) (db : Db)
    (params : GenerateListingItemTemplateParams) : ListingItemTemplateCreateRequest :=
  { itemInformation :=
      if params.generateItemInformation then env.itemInformation else emptyObjectContent
    paymentInformation :=
      if params.generatePaymentInformation then env.paymentInformation else emptyObjectContent
    messagingInformation :=
      if params.generateMessagingInformation then env.messagingInformation else emptyArrayContent
    listingItemObjects :=
      if params.generateListingItemObjects then env.listingItemObjects else emptyArrayContent
    profile_id := params.profileId.getD db.defaultProfileId }

/-- The address of the profile a template belongs to (`result.Profile.address`
after `toJSON()`). -/
def Db.profileAddress (db : Db) (pid : Nat) : String :=
  ((db.profiles.find? (fun p => p.id == pid)).map (fun p => p.address)).getD ""

/-- One result row of `generateListingItemTemplates`: the template, with its
`ListingItems` relation after the re-fetch. -/
structure TemplateResult where
  template : StoredListingItemTemplate
  listingItems : List StoredListingItem
  deriving DecidableEq

/-- One iteration of the `generateListingItemTemplates` loop (lines 338-384):
create the template from the generated data; when `generateParams.
generateListingItem` is set, create a listing item carrying the template
request's `itemInformation`, `paymentInformation`, `messagingInformation` and
`listingItemObjects`, posted to `generateParams.marketId` (default market when
`null`), and re-fetch the template with the new relation. -/
def generateListingItemTemplateOne (digest : String → String) (env : TemplateGenEnv)
    (db : Db) (params : GenerateListingItemTemplateParams) (now : Nat) :
    TemplateResult × Db :=
  let req := generateListingItemTemplateData env db params
  let created := listingItemTemplateServiceCreate digest db req
  let tmpl := created.1
  let db1 := created.2
  if params.generateListingItem then
    let marketId := params.marketId.getD db1.defaultMarketId
    let listingReq : ListingItemCreateRequest :=
      { seller := db1.profileAddress tmpl.profile_id
        market_id := marketId
        listing_item_template_id := some tmpl.id
        itemInformation := req.itemInformation
        paymentInformation := req.paymentInformation
        messagingInformation := req.messagingInformation
        listingItemObjects := req.listingItemObjects
        expiryTime := 10
        postedAt := now
        expiredAt := now + 60 * 1000 * 60 * 24 * 10
        receivedAt := now }
    let createdItem := listingItemServiceCreate digest db1 listingReq
    ({ template := tmpl, listingItems := [createdItem.1] }, createdItem.2)
  else
    ({ template := tmpl, listingItems := [] }, db1)

/-- The `generateListingItemTemplates` loop (lines 332-386); the result models
the `withRelated = true` return (`generateResponse` would project ids
otherwise).  Iteration `i` consumes the Faker environment `envs i`. -/
def generateListingItemTemplates (digest : String → String) (envs : Nat → TemplateGenEnv)
    (db : Db) (amount : Nat) (params : GenerateListingItemTemplateParams) (now : Nat) :
    List TemplateResult × Db :=
  match amount with
  | 0 => ([], db)
  | n + 1 =>
    let one := generateListingItemTemplateOne digest (envs n) db params now
    let rest := generateListingItemTemplates digest envs one.2 n params now
    (one.1 :: rest.1, rest.2)

/-! ## generateListingItems (part_000, lines 391-421 and 878-920) -/

/-- `generateListingItemData` (lines 878-920): seller from the params or a new
daemon address, content parts by flags, default market, fixed expiry, and the
template relation resolved by `listingItemTemplateHash` when set and found. -/
def generateListingItemData (env : ListingGenEnv) (db : Db)
    (params : GenerateListingItemParams) (now : Nat) : ListingItemCreateRequest :=
  let base : ListingItemCreateRequest :=
    { seller := params.seller.getD env.newAddress
      market_id := db.defaultMarketId
      itemInformation :=
        if params.generateItemInformation then env.itemInformation else emptyObjectContent
      paymentInformation :=
        if params.generatePaymentInformation then env.paymentInformation else emptyObjectContent
      messagingInformation :=
        if params.generateMessagingInformation then env.messagingInformation else emptyArrayContent
      listingItemObjects :=
        if params.generateListingItemObjects then env.listingItemObjects else emptyArrayContent
      expiryTime := 4
      postedAt := now
      expiredAt := now + 100000000
      receivedAt := now }
  match params.listingItemTemplateHash with
  | none => base
  | some h =>
    match listingItemTemplateServiceFindOneByHash db h with
    | some tmpl => { base with listing_item_template_id := some tmpl.id }
    | none => base

/-- The `generateListingItems` loop (lines 391-421), `withRelated = true`. -/
def generateListingItems (digest : String → String) (envs : Nat → ListingGenEnv)
    (db : Db) (amount : Nat) (params : GenerateListingItemParams) (now : Nat) :
    List StoredListingItem × Db :=
  match amount with
  | 0 => ([], db)
  | n + 1 =>
    let req := generateListingItemData (envs n) db params now
    let created := listingItemServiceCreate digest db req
    let rest := generateListingItems digest envs created.2 n params now
    (created.1 :: rest.1, rest.2)

/-! ## generateBids (part_000, lines 425-535) -/

/-- The constant `bidDatas` list of `generateBidData` (lines 495-515); the one
numeric value is rendered as its decimal literal. -/
def testBidDatas : List BidDataCreateRequest :=
  [⟨"size", "XL"⟩,
   ⟨"color", "pink"⟩,
   ⟨"BUYER_OUTPUTS", "[\x7b\"txid\":\"d39a1f90b7fd204bbdbaa49847c0615202c5624bc73634cd83d831e4a226ee0b\",\"vout\":1,\"amount\":1.52497491\x7d]"⟩,
   ⟨"BUYER_PUBKEY", "021e3ccb8a295d6aca9cf2836587f24b1c2ce14b217fe85b1672ee133e2a5d6d90"⟩,
   ⟨"BUYER_CHANGE_ADDRESS", "pbofM9onECpn76EosG1GLpyTcQCrfcLhb4"⟩,
   ⟨"BUYER_CHANGE_AMOUNT", "96.52477491"⟩,
   ⟨"BUYER_RELEASE_ADDRESS", "pbofM9onECpn76EosG1GLpyTcQCrfcLhb5"⟩,
   ⟨"SELLER_PUBKEY", "021e3ccb8a295d6aca9cf2836587f24b1c2ce14b217fe85b1672ee133e2a5d6d91"⟩,
   ⟨"SELLER_OUTPUTS", "[\x7b\"txid\":\"d39a1f90b7fd204bbdbaa49847c0615202c5624bc73634cd83d831e4a226ee0a\",\"vout\":1,\"amount\":1.52497491\x7d]"⟩,
   ⟨"SHIPPING_ADDRESS_FIRST_NAME", "asdf"⟩,
   ⟨"SHIPPING_ADDRESS_LAST_NAME", "asdf"⟩,
   ⟨"SHIPPING_ADDRESS_ADDRESS_LINE1", "asdf"⟩,
   ⟨"SHIPPING_ADDRESS_ADDRESS_LINE2", "asdf"⟩,
   ⟨"SHIPPING_ADDRESS_CITY", "asdf"⟩,
   ⟨"SHIPPING_ADDRESS_STATE", ""⟩,
   ⟨"SHIPPING_ADDRESS_ZIP_CODE", "1234"⟩,
   ⟨"SHIPPING_ADDRESS_COUNTRY", "FI"⟩]

/-- `generateBidData` (lines 481-535): the generated address is attached to
the default profile; the bidder falls back to a new daemon address and the
action to `MPA_BID`; when `generateParams.listingItemHash` is set (hashes are
non-empty strings, so set means truthy), the listing item is fetched by hash
and, when found, `listing_item_id` is assigned its id, and `listing_item_id`
is left unset otherwise. -/
def generateBidData (env : BidGenEnv) (db : Db) (params : GenerateBidParams) :
    BidCreateRequest :=
  let address := { env.address with profile_id := some db.defaultProfileId }
  let bidder := params.bidder.getD env.newAddress
  let action := params.action.getD .MPA_BID
  let base : BidCreateRequest :=
    { action := action, address := address, bidder := bidder, bidDatas := testBidDatas }
  match params.listingItemHash with
  | none => base
  | some h =>
    match listingItemServiceFindOneByHash db h with
    | some li => { base with listing_item_id := some li.id }
    | none => base

/-- The bid-creation loop of `generateBids` (lines 471-478). -/
def generateBidsLoop (envs : Nat → BidGenEnv) (db : Db) (params : GenerateBidParams) :
    Nat → List StoredBid × Db
  | 0 => ([], db)
  | n + 1 =>
    let req := generateBidData (envs n) db params
    let created := bidServiceCreate db req
    let rest := generateBidsLoop envs created.2 params n
    (created.1 :: rest.1, rest.2)

/-- Environment of one `generateBids` call: the content for the optional
template and listing item, and the per-iteration bid environments. -/
structure BidsGenEnv where
  templateEnv : TemplateGenEnv
  listingEnv : ListingGenEnv
  bidEnvs : Nat → BidGenEnv

/-- The template step of `generateBids` (lines 438-448): generate one template
with default parameters and record its hash in the listing-item generation
parameters.  The generated list has exactly one element; the empty case is
unreachable and leaves the parameters unchanged. -/
def generateBidsStepTemplate (digest : String → String) (env : BidsGenEnv) (db : Db)
    (params : GenerateBidParams) (now : Nat) : GenerateListingItemParams × Db :=
  let litp := GenerateListingItemParams.init
  if params.generateListingItemTemplate then
    let gen := generateListingItemTemplates digest (fun _ => env.templateEnv) db 1
      GenerateListingItemTemplateParams.init now
    match gen.1 with
    | r :: _ => ({ litp with listingItemTemplateHash := some r.template.hash }, gen.2)
    | [] => (litp, gen.2)
  else
    (litp, db)

/-- The listing-item step of `generateBids` (lines 451-467): set the seller,
generate one listing item and record its hash in the bid generation
parameters. -/
def generateBidsStepItem (digest : String → String) (env : BidsGenEnv) (db : Db)
    (litp : GenerateListingItemParams) (params : GenerateBidParams) (now : Nat) :
    GenerateBidParams × Db :=
  if params.generateListingItem then
    let litp2 := { litp with seller := params.listingItemSeller }
    let gen := generateListingItems digest (fun _ => env.listingEnv) db 1 litp2 now
    match gen.1 with
    | it :: _ => ({ params with listingItemHash := some it.hash }, gen.2)
    | [] => (params, gen.2)
  else
    (params, db)

/-- `generateBids` (lines 425-479), `withRelated = true`. -/
def generateBids (digest : String → String) (env : BidsGenEnv) (db : Db) (amount : Nat)
    (params : GenerateBidParams) (now : Nat) : List StoredBid × Db :=
  let step1 := generateBidsStepTemplate digest env db params now
  let step2 := generateBidsStepItem digest env step1.2 step1.1 params now
  generateBidsLoop env.bidEnvs step2.2 step2.1 amount

/-! ## generateOrders (part_000, lines 539-597) -/

/-- The bid-resolution step of `generateOrders` (lines 545-565): when
`generateParams.generateBid` is set, generate one bid with action
`MPA_ACCEPT` (and the template/listing-item flags and seller carried over);
otherwise look the bid up by `generateParams.bidId` (`findOne` throws
`NotFoundException` when there is no such bid).  The generated list has
exactly one element; its empty case is unreachable. -/
def resolveOrderBid (digest : String → String) (env : BidsGenEnv) (db : Db)
    (params : GenerateOrderParams) (now : Nat) : Except MarketError (StoredBid × Db) :=
  if params.generateBid then
    let bidGenParams : GenerateBidParams :=
      { generateListingItemTemplate := params.generateListingItemTemplate
        generateListingItem := params.generateListingItem
        listingItemHash := none
        action := some .MPA_ACCEPT
        bidder := none
        listingItemSeller := params.listingItemSeller }
    let gen := generateBids digest env db 1 bidGenParams now
    match gen.1 with
    | b :: _ => .ok (b, gen.2)
    | [] => .error .notFound
  else
    match bidServiceFindOne db params.bidId with
    | some b => .ok (b, db)
    | none => .error .notFound

/-- The post-processing of `generateOrderData` (lines 584-597): the factory's
order create request, with the order items dropped unless
`generateParams.generateOrderItem` is set. -/
def orderReqFromBid (factory : StoredBid → OrderCreateRequest)
    (params : GenerateOrderParams) (bid : StoredBid) : OrderCreateRequest :=
  let req := factory bid
  if params.generateOrderItem then req else { req with orderItems := [] }

/-- `generateOrderData` (lines 584-597): fetch the bid by `generateParams.
bidId` and build the order create request from it via
`OrderFactory.getModelFromBid` (the `factory` parameter, kept abstract since
the factory is not part of the snapshot). -/
def generateOrderData (factory : StoredBid → OrderCreateRequest) (db : Db)
    (params : GenerateOrderParams) : Except MarketError OrderCreateRequest :=
  match bidServiceFindOne db params.bidId with
  | none => .error .notFound
  | some bid => .ok (orderReqFromBid factory params bid)

/-- The order-creation loop of `generateOrders` (lines 570-579). -/
def generateOrdersLoop (factory : StoredBid → OrderCreateRequest)
    (params : GenerateOrderParams) (db : Db) :
    Nat → Except MarketError (List StoredOrder × Db)
  | 0 => .ok ([], db)
  | n + 1 =>
    match generateOrderData factory db params with
    | .error e => .error e
    | .ok req =>
      let created := orderServiceCreate db req
      match generateOrdersLoop factory params created.2 n with
      | .error e => .error e
      | .ok rest => .ok (created.1 :: rest.1, rest.2)

/-- `generateOrders` (lines 539-582), `withRelated = true`: resolve the bid,
store its id in `generateParams.bidId`, then create the orders. -/
def generateOrders (digest : String → String) (factory : StoredBid → OrderCreateRequest)
    (env : BidsGenEnv) (db : Db) (amount : Nat) (params : GenerateOrderParams) (now : Nat) :
    Except MarketError (List StoredOrder × GenerateOrderParams × Db) :=
  match resolveOrderBid digest env db params now with
  | .error e => .error e
  | .ok (bid, db1) =>
    let params2 := { params with bidId := bid.id }
    match generateOrdersLoop factory params2 db1 amount with
    | .error e => .error e
    | .ok (orders, db2) => .ok (orders, params2, db2)

/-! ## generateProposalData (part_000, lines 719-782) -/

/-- A `ProposalOptionCreateRequest`. -/
structure ProposalOptionCreateRequest where
  proposalHash : String
  optionId : Nat
  description : String
  deriving DecidableEq

/-- A `ProposalCreateRequest`: the hashable proposal data plus the hash and
the two options assigned after hashing.  Times are rationals since
`currentTime / 2` is evaluated with JavaScript number division. -/
structure ProposalCreateRequest extends ProposalData where
  hash : String
  options : List ProposalOptionCreateRequest
  deriving DecidableEq

/-- Faker-generated texts used by `generateProposalData` when there is no
listing item hash. -/
structure ProposalGenEnv where
  fakerWords4 : String
  fakerWords40 : String
  deriving DecidableEq

/-- The lodash `_.random(lower, upper, false)` contract: a value between the
two bounds; when `lower > upper` lodash swaps them, hence the min/max. -/
def IsLodashRandom (lower upper x : ℚ) : Prop :=
  min lower upper ≤ x ∧ x ≤ max lower upper

/-- The bounds of the `timeStart` sample in `generateProposalData` (lines
737-739): `[1, now/2]` for a past proposal, `[now+100, now+1000]` otherwise. -/
def timeStartBounds (generatePastProposal : Bool) (currentTime : ℚ) : ℚ × ℚ :=
  if generatePastProposal then (1, currentTime / 2)
  else (currentTime + 100, currentTime + 1000)

/-- The bounds of the `timeEnd` sample in `generateProposalData` (lines
741-743): `[now/2 + 100, now - 1000]` for a past proposal,
`[now+1001, now+2000]` otherwise. -/
def timeEndBounds (generatePastProposal : Bool) (currentTime : ℚ) : ℚ × ℚ :=
  if generatePastProposal then (currentTime / 2 + 100, currentTime - 1000)
  else (currentTime + 1001, currentTime + 2000)

/-- `generateProposalData` (lines 719-782): submitter from the params or the
default profile; an `ITEM_VOTE` on the listing item hash when one is set and a
`PUBLIC_VOTE` on Faker text otherwise; `timeStart`/`timeEnd` are the two
lodash samples (`tS`, `tE`), with `postedAt = receivedAt = timeStart` and
`expiredAt = timeEnd`; the hash is computed by `ObjectHash.getHash` and the
two `KEEP`/`REMOVE` options attached afterwards. -/
def generateProposalData (digest : String → String) (env : ProposalGenEnv) (db : Db)
    (params : GenerateProposalParams) (tS tE : ℚ) : ProposalCreateRequest :=
  let submitter := params.submitter.getD db.defaultProfileAddress
  let type := if params.listingItemHash.isSome then ProposalType.ITEM_VOTE
    else ProposalType.PUBLIC_VOTE
  let title := params.listingItemHash.getD env.fakerWords4
  let item := params.listingItemHash
  let description :=
    if params.listingItemHash.isSome then "ILLEGAL ITEM" else env.fakerWords40
  let data : ProposalData :=
    { submitter := submitter
      type := type
      item := item
      title := title
      description := description
      timeStart := tS
      postedAt := tS
      receivedAt := tS
      expiredAt := tE }
  let hash := ObjectHash.getHash digest .PROPOSAL_CREATEREQUEST (.proposal data)
  { toProposalData := data
    hash := hash
    options :=
      [{ proposalHash := hash, optionId := 0, description := ItemVote.KEEP.text },
       { proposalHash := hash, optionId := 1, description := ItemVote.REMOVE.text }] }

/-! ## TestDataService.create / generate dispatch (part_000, lines 169-256) -/

/-- A `MessageException` (`src/src/api/exceptions/MessageException.ts`): its
constructor passes HTTP code 404 and the template-rendered message to the
`Exception` base class. -/
structure MessageException where
  httpCode : Nat
  message : String
  deriving DecidableEq

/-- The `MessageException` constructor: `super(404, message)` (the template
literal renders a string argument unchanged). -/
def MessageException.make (message : String) : MessageException :=
  { httpCode := 404, message := message }

/-- Which domain-service entry point a `TestDataService.create` or
`TestDataService.generate` dispatch invokes. -/
inductive ServiceCall where
  | listingItemTemplateCreate
  | listingItemCreate
  | actionMessageCreate
  | profileCreate
  | itemCategoryCreate
  | favoriteItemCreate
  | itemInformationCreate
  | bidCreate
  | paymentInformationCreate
  | itemImageCreate
  | genListingItemTemplates
  | genActionMessages
  | genListingItems
  | genProfiles
  | genBids
  | genOrders
  | genProposals
  deriving DecidableEq

/-- A `TestDataCreateRequest`: the model tag, the opaque request body, and the
remaining flags. -/
structure TestDataCreateRequest where
  model : CreatableModel
  data : String
  withRelated : Bool
  timestampedHash : Bool
  deriving DecidableEq

/-- A `TestDataGenerateRequest`. -/
structure TestDataGenerateRequest where
  model : CreatableModel
  amount : Nat
  withRelated : Bool
  generateParams : List Bool
  deriving DecidableEq

/-- The dispatch of `TestDataService.create` (lines 170-208): each supported
model forwards the body to its domain service (modelled by the invoked
`ServiceCall` tag); every other model throws `MessageException('Not
implemented')` without invoking any service. -/
def testDataServiceCreate (body : TestDataCreateRequest) :
    Except MessageException ServiceCall :=
  match body.model with
  | .LISTINGITEMTEMPLATE => .ok .listingItemTemplateCreate
  | .LISTINGITEM => .ok .listingItemCreate
  | .ACTIONMESSAGE => .ok .actionMessageCreate
  | .PROFILE => .ok .profileCreate
  | .ITEMCATEGORY => .ok .itemCategoryCreate
  | .FAVORITEITEM => .ok .favoriteItemCreate
  | .ITEMINFORMATION => .ok .itemInformationCreate
  | .BID => .ok .bidCreate
  | .PAYMENTINFORMATION => .ok .paymentInformationCreate
  | .ITEMIMAGE => .ok .itemImageCreate
  | _ => .error (MessageException.make "Not implemented")

/-- The dispatch of `TestDataService.generate` (lines 222-256). -/
def testDataServiceGenerate (body : TestDataGenerateRequest) :
    Except MessageException ServiceCall :=
  match body.model with
  | .LISTINGITEMTEMPLATE => .ok .genListingItemTemplates
  | .ACTIONMESSAGE => .ok .genActionMessages
  | .LISTINGITEM => .ok .genListingItems
  | .PROFILE => .ok .genProfiles
  | .BID => .ok .genBids
  | .ORDER => .ok .genOrders
  | .PROPOSAL => .ok .genProposals
  | _ => .error (MessageException.make "Not implemented")

/-- The set of models `TestDataService.create` supports (the cases of its
switch). -/
def createSupported : CreatableModel → Bool
  | .LISTINGITEMTEMPLATE | .LISTINGITEM | .ACTIONMESSAGE | .PROFILE | .ITEMCATEGORY
  | .FAVORITEITEM | .ITEMINFORMATION | .BID | .PAYMENTINFORMATION | .ITEMIMAGE => true
  | _ => false

/-- The set of models `TestDataService.generate` supports. -/
def generateSupported : CreatableModel → Bool
  | .LISTINGITEMTEMPLATE | .ACTIONMESSAGE | .LISTINGITEM | .PROFILE | .BID
  | .ORDER | .PROPOSAL => true
  | _ => false

/-! ## BidActionService.processBidReceivedEvent

`BidActionService` is not part of the source snapshot; only its integration
test (`test/integration/messageprocessors/BidMessage.test.ts`) is.  It is
modelled from the spec: action services "consume a inbound 'marketplace
event' (message + parsed payload), resolve it against existing entities by
hash, and drive the domain services to record the transition", the transition
for an inbound bid message being the creation of a Bid. -/

/-- A `BidMessage`: the action, the listing item content hash in `item`, and
the bid's key/value objects. -/
structure BidMessage where
  action : BidMessageType
  item : String
  objects : List (String × String)
  deriving DecidableEq

/-- A `MarketplaceMessage` carrying a bid action. -/
structure MarketplaceMessage where
  version : String
  mpaction : BidMessage
  market : String
  deriving DecidableEq

/-- The smsg transport envelope fields the pipeline reads. -/
structure SmsgMessage where
  msgid : String
  version : String
  from_ : String
  to_ : String
  deriving DecidableEq

/-- A `MarketplaceEvent`: the transport message and the parsed marketplace
message. -/
structure MarketplaceEvent where
  smsgMessage : SmsgMessage
  marketplaceMessage : MarketplaceMessage
  deriving DecidableEq

/-- A lookup in a bid message's key/value objects (used to assemble the
shipping address of the bid create request). -/
def bidObjectValue (objects : List (String × String)) (key : String) : String :=
  ((objects.find? (fun o => o.1 == key)).map (fun o => o.2)).getD ""

/-- Modelled from the spec: the shipping address the bid factory assembles
from the `SHIPPING_ADDRESS_*` objects of an inbound bid message. -/
def addressFromBidObjects (objects : List (String × String)) : AddressCreateRequest :=
  { firstName := bidObjectValue objects "SHIPPING_ADDRESS_FIRST_NAME"
    lastName := bidObjectValue objects "SHIPPING_ADDRESS_LAST_NAME"
    title := ""
    addressLine1 := bidObjectValue objects "SHIPPING_ADDRESS_ADDRESS_LINE1"
    addressLine2 := bidObjectValue objects "SHIPPING_ADDRESS_ADDRESS_LINE2"
    zipCode := bidObjectValue objects "SHIPPING_ADDRESS_ZIP_CODE"
    city := bidObjectValue objects "SHIPPING_ADDRESS_CITY"
    state := bidObjectValue objects "SHIPPING_ADDRESS_STATE"
    country := bidObjectValue objects "SHIPPING_ADDRESS_COUNTRY"
    profile_id := none }

/-- Modelled from the spec: `BidActionService.processBidReceivedEvent`.  The
inbound event's `mpaction` is a `BidMessage`; the listing item is resolved by
the content hash it carries in `item` (`NotFoundException` when there is no
such listing), the bid create request is assembled from the message (action,
bidder from the transport sender, the message's objects) and persisted through
`BidService.create`; the persisted bid is returned. -/
def processBidReceivedEvent (db : Db) (event : MarketplaceEvent) :
    Except MarketError (StoredBid × Db) :=
  let msg := event.marketplaceMessage.mpaction
  match listingItemServiceFindOneByHash db msg.item with
  | none => .error .notFound
  | some listing =>
    let req : BidCreateRequest :=
      { action := msg.action
        address := addressFromBidObjects msg.objects
        bidder := event.smsgMessage.from_
        bidDatas := msg.objects.map (fun o => ⟨o.1, o.2⟩)
        listing_item_id := some listing.id }
    .ok (bidServiceCreate db req)

/-! ## Shared helper lemmas -/

/-- Sorting with insertion sort identifies lists up to permutation. -/
theorem insertionSort_eq_of_perm {l1 l2 : List Char} (h : l1.Perm l2) :
    l1.insertionSort (· ≤ ·) = l2.insertionSort (· ≤ ·) :=
  List.eq_of_perm_of_sorted
    ((List.perm_insertionSort _ l1).trans (h.trans (List.perm_insertionSort _ l2).symm))
    (List.sorted_insertionSort _ l1) (List.sorted_insertionSort _ l2)

/-! ## Claim theorems -/

/-- C7.  `signMessage` and `verifyMessage` apply the identical canonicalization
to the message, so for every message the signable string submitted to the
daemon's `verifymessage` call equals the one submitted to its `signmessage`
call (third parameter of the former, second parameter of the latter). -/
theorem signable_canonicalization_agrees {α : Type} (stringify : α → String)
    (address signature : String) (message : α) :
    verifyMessageSignable stringify message = signMessageSignable stringify message ∧
    signMessage stringify address message
      = ("signmessage", [address, signMessageSignable stringify message]) ∧
    verifyMessage stringify address signature message
      = ("verifymessage", [address, signature, signMessageSignable stringify message]) :=
  ⟨rfl, rfl, rfl⟩

/-- Witness for C7 at a concrete message. -/
theorem signable_canonicalization_agrees_witness :
    verifyMessageSignable JsVal.jsStringify (JsVal.str "ba")
      = signMessageSignable JsVal.jsStringify (JsVal.str "ba") :=
  (signable_canonicalization_agrees JsVal.jsStringify "addr" "sig" (JsVal.str "ba")).1

/-- C9.  The canonicalization identifies messages up to the multiset of
characters of their JSON serialization: two distinct messages whose
serializations are character permutations of each other yield the same
signable string, so the string `verifyMessage` submits for the second message
equals the string `signMessage` submitted for the first. -/
theorem signable_permutation_invariance {α : Type} (stringify : α → String)
    (address signature : String) (m1 m2 : α) (_hne : m1 ≠ m2)
    (hperm : (stringify m1).toList.Perm (stringify m2).toList) :
    signMessageSignable stringify m1 = verifyMessageSignable stringify m2 ∧
    (verifyMessage stringify address signature m2).2
      = [address, signature, signMessageSignable stringify m1] := by
  have hsort := insertionSort_eq_of_perm hperm
  have heq : signMessageSignable stringify m1 = verifyMessageSignable stringify m2 := by
    unfold signMessageSignable verifyMessageSignable
    rw [hsort]
  exact ⟨heq, by simp [verifyMessage, verifyMessageSignable] at heq ⊢; rw [← heq]⟩

/-- The first of the two permuted example messages: the JavaScript object with
fields `a: 1, b: 2` in that order. -/
def permExampleA : JsVal := .obj (.cons "a" (.num 1) (.cons "b" (.num 2) .nil))

/-- The second permuted example message: the same fields in the other order,
whose JSON serialization is a character permutation of the first one's. -/
def permExampleB : JsVal := .obj (.cons "b" (.num 2) (.cons "a" (.num 1) .nil))

/-- Witness for C9: the two example objects serialize to distinct permuted
strings and get the same signable string. -/
theorem signable_permutation_invariance_witness :
    (JsVal.jsStringify permExampleA).toList.Perm (JsVal.jsStringify permExampleB).toList ∧
    signMessageSignable JsVal.jsStringify permExampleA
      = verifyMessageSignable JsVal.jsStringify permExampleB := by
  refine ⟨by decide, (signable_permutation_invariance JsVal.jsStringify "addr" "sig"
    permExampleA permExampleB ?_ (by decide)).1⟩
  intro h
  exact absurd (congrArg JsVal.jsStringify h) (by decide)

/-- C3.  In `generateBidData`, when `generateParams.listingItemHash` is set and
a listing item with that hash exists, the returned request's `listing_item_id`
is the id of the listing item found by that hash; when the hash is unset,
`listing_item_id` is left unset. -/
theorem generateBidData_listing_item_id (env : BidGenEnv) (db : Db)
    (params paramsU : GenerateBidParams) (h : String) (li : StoredListingItem)
    (hset : params.listingItemHash = some h)
    (hfound : listingItemServiceFindOneByHash db h = some li)
    (hunset : paramsU.listingItemHash = none) :
    (generateBidData env db params).listing_item_id = some li.id ∧
    (generateBidData env db paramsU).listing_item_id = none := by
  constructor
  · simp only [generateBidData, hset, hfound]
  · simp only [generateBidData, hunset]

/-- The Faker shipping address used by the concrete test runs. -/
def wAddress : AddressCreateRequest :=
  { firstName := "fn", lastName := "ln", title := "t", addressLine1 := "l1"
    addressLine2 := "l2", zipCode := "zip", city := "city", state := "st"
    country := "FI", profile_id := none }

/-- A concrete persisted listing item with hash `f08f3d6e` (the hash used by
the integration test's fixture). -/
def wListingItem : StoredListingItem :=
  { id := 3, seller := "seller", market_id := 1, listing_item_template_id := none
    itemInformation := "i", paymentInformation := "p", messagingInformation := "m"
    listingItemObjects := "o", expiryTime := 4, postedAt := 0, expiredAt := 9
    receivedAt := 0, hash := "f08f3d6e" }

/-- A concrete database holding the default profile and one listing item. -/
def wDb : Db :=
  { defaultProfileId := 1, defaultMarketId := 1, profiles := [⟨1, "profileAddr"⟩]
    listingItemTemplates := [], listingItems := [wListingItem], bids := []
    orders := [], nextId := 4 }

/-- The environment of one concrete `generateBidData` run. -/
def wBidGenEnv : BidGenEnv := ⟨wAddress, "newAddr"⟩

/-- Concrete bid generation parameters referencing the listing by hash. -/
def wBidParamsSet : GenerateBidParams :=
  { generateListingItemTemplate := false, generateListingItem := false
    listingItemHash := some "f08f3d6e", action := none, bidder := none
    listingItemSeller := none }

/-- Concrete bid generation parameters with the hash unset. -/
def wBidParamsUnset : GenerateBidParams :=
  { wBidParamsSet with listingItemHash := none }

/-- Witness for C3 on the concrete database. -/
theorem generateBidData_listing_item_id_witness :
    (generateBidData wBidGenEnv wDb wBidParamsSet).listing_item_id = some 3 ∧
    (generateBidData wBidGenEnv wDb wBidParamsUnset).listing_item_id = none :=
  generateBidData_listing_item_id wBidGenEnv wDb wBidParamsSet wBidParamsUnset
    "f08f3d6e" wListingItem rfl rfl rfl

/-- C8.  For every create or generate request whose model is outside the
respective switch's supported set, `TestDataService` throws a
`MessageException` with message `Not implemented` and HTTP code 404, without
invoking any domain service (the error carries no `ServiceCall`). -/
theorem testDataService_not_implemented (bodyC : TestDataCreateRequest)
    (bodyG : TestDataGenerateRequest)
    (hC : createSupported bodyC.model = false)
    (hG : generateSupported bodyG.model = false) :
    testDataServiceCreate bodyC = .error ⟨404, "Not implemented"⟩ ∧
    testDataServiceGenerate bodyG = .error ⟨404, "Not implemented"⟩ := by
  constructor
  · obtain ⟨m, d, w, t⟩ := bodyC
    cases m <;> simp_all [testDataServiceCreate, createSupported, MessageException.make]
  · obtain ⟨m, a, w, g⟩ := bodyG
    cases m <;> simp_all [testDataServiceGenerate, generateSupported, MessageException.make]

/-- Witness for C8: `ORDER` is outside the create switch and `ITEMCATEGORY`
outside the generate switch. -/
theorem testDataService_not_implemented_witness :
    testDataServiceCreate ⟨.ORDER, "", true, false⟩ = .error ⟨404, "Not implemented"⟩ ∧
    testDataServiceGenerate ⟨.ITEMCATEGORY, 1, true, []⟩ = .error ⟨404, "Not implemented"⟩ :=
  testDataService_not_implemented ⟨.ORDER, "", true, false⟩ ⟨.ITEMCATEGORY, 1, true, []⟩
    rfl rfl

/-- C2.  `ObjectHash.getHash` is deterministic: equal inputs yield the same
hash, and the hash stored on a listing item template at creation equals the
hash recomputed from the stored record's own content. -/
theorem objectHash_deterministic (digest : String → String) (t : HashableObjectType)
    (o1 o2 : HashableObject) (heq : o1 = o2) :
    ObjectHash.getHash digest t o1 = ObjectHash.getHash digest t o2 ∧
    ∀ (db : Db) (req : ListingItemTemplateCreateRequest),
      (listingItemTemplateServiceCreate digest db req).1.hash
        = ObjectHash.getHash digest .LISTINGITEMTEMPLATE
            (.listing (listingItemTemplateServiceCreate digest db req).1.content) :=
  ⟨by rw [heq], fun db req => rfl⟩

/-- A concrete hashable listing content. -/
def wContent : HashableContent := ⟨"i", "p", "m", "o"⟩

/-- Witness for C2 with the identity digest stand-in. -/
theorem objectHash_deterministic_witness :
    ObjectHash.getHash (fun s => s) .LISTINGITEMTEMPLATE (.listing wContent)
      = ObjectHash.getHash (fun s => s) .LISTINGITEMTEMPLATE (.listing wContent) :=
  (objectHash_deterministic (fun s => s) .LISTINGITEMTEMPLATE
    (.listing wContent) (.listing wContent) rfl).1

/-- C1.  Processing an inbound `MPA_BID` marketplace event whose bid message
references an existing listing item by content hash resolves the listing by
that hash and returns a persisted bid whose action is the received message's
action. -/
theorem processBidReceivedEvent_creates_bid (db : Db) (event : MarketplaceEvent)
    (listing : StoredListingItem)
    (haction : event.marketplaceMessage.mpaction.action = .MPA_BID)
    (hfound : listingItemServiceFindOneByHash db event.marketplaceMessage.mpaction.item
      = some listing) :
    ∃ bid db2, processBidReceivedEvent db event = .ok (bid, db2) ∧
      bid.action = event.marketplaceMessage.mpaction.action ∧
      bid.action = .MPA_BID ∧
      bid.listing_item_id = some listing.id ∧
      bid ∈ db2.bids := by
  have hrun : processBidReceivedEvent db event =
      .ok (bidServiceCreate db
        { action := event.marketplaceMessage.mpaction.action
          address := addressFromBidObjects event.marketplaceMessage.mpaction.objects
          bidder := event.smsgMessage.from_
          bidDatas := event.marketplaceMessage.mpaction.objects.map (fun o => ⟨o.1, o.2⟩)
          listing_item_id := some listing.id }) := by
    simp only [processBidReceivedEvent, hfound]
  refine ⟨_, _, hrun, rfl, haction, rfl, ?_⟩
  simp [bidServiceCreate]

/-- A concrete inbound `MPA_BID` event for the listing with hash `f08f3d6e`. -/
def wEvent : MarketplaceEvent :=
  { smsgMessage := ⟨"1", "0300", "pgS7muLvK1DXsFMD56UySmqTryvnpnKvh6",
      "pmktyVZshdMAQ6DPbbRXEFNGuzMbTMkqAA"⟩
    marketplaceMessage :=
      { version := "0300"
        mpaction := { action := .MPA_BID, item := "f08f3d6e", objects := [("color", "pink")] }
        market := "market" } }

/-- Witness for C1 on the concrete database and event. -/
theorem processBidReceivedEvent_creates_bid_witness :
    ∃ bid db2, processBidReceivedEvent wDb wEvent = .ok (bid, db2) ∧
      bid.action = .MPA_BID ∧ bid.listing_item_id = some 3 ∧ bid ∈ db2.bids := by
  obtain ⟨bid, db2, hc, _, hact, hli, hmem⟩ :=
    processBidReceivedEvent_creates_bid wDb wEvent wListingItem rfl rfl
  exact ⟨bid, db2, hc, hact, hli, hmem⟩

/-- C5.  A listing item generated together with its template carries the same
content hash as the template: in every result row of
`generateListingItemTemplates` with `generateParams.generateListingItem` set,
a listing item was created and each related listing item's hash equals the
template's hash. -/
theorem generateListingItemTemplates_shared_hash (digest : String → String)
    (envs : Nat → TemplateGenEnv) (db : Db) (amount : Nat)
    (params : GenerateListingItemTemplateParams) (now : Nat)
    (hgen : params.generateListingItem = true) :
    ∀ r ∈ (generateListingItemTemplates digest envs db amount params now).1,
      r.listingItems ≠ [] ∧ ∀ li ∈ r.listingItems, li.hash = r.template.hash := by
  induction amount generalizing db with
  | zero =>
    intro r hr
    simp [generateListingItemTemplates] at hr
  | succ n ih =>
    intro r hr
    simp only [generateListingItemTemplates, List.mem_cons] at hr
    rcases hr with hr | hr
    · subst hr
      constructor
      · simp [generateListingItemTemplateOne, hgen]
      · intro li hli
        simp only [generateListingItemTemplateOne, hgen, if_true, List.mem_singleton] at hli
        subst hli
        simp [generateListingItemTemplateOne, hgen, listingItemServiceCreate,
          listingItemTemplateServiceCreate, ObjectHash.getHash, canonicalize,
          ListingItemCreateRequest.content, ListingItemTemplateCreateRequest.content,
          listingCanonical]
    · exact ih _ _ hr

/-- The Faker-generated content used by the concrete template run. -/
def wTemplateEnv : TemplateGenEnv := ⟨"i", "p", "m", "o"⟩

/-- Concrete template generation parameters that also generate the listing. -/
def wTemplateParams : GenerateListingItemTemplateParams :=
  { GenerateListingItemTemplateParams.init with generateListingItem := true }

/-- Witness for C5: a concrete one-template run yields a listing item whose
hash equals the template's. -/
theorem generateListingItemTemplates_shared_hash_witness :
    ∃ r rest,
      (generateListingItemTemplates (fun s => s) (fun _ => wTemplateEnv) wDb 1
        wTemplateParams 1000).1 = r :: rest ∧
      r.listingItems ≠ [] ∧
      ∀ li ∈ r.listingItems, li.hash = r.template.hash := by
  have H := generateListingItemTemplates_shared_hash (fun s => s) (fun _ => wTemplateEnv)
    wDb 1 wTemplateParams 1000 rfl
  refine ⟨_, _, rfl, H _ ?_⟩
  simp [generateListingItemTemplates]

/-- C10.  Every proposal create request produced by `generateProposalData`
satisfies `timeStart < expiredAt` strictly, for both values of
`generatePastProposal`, provided the current epoch time is at least 2200
milliseconds (so the past-proposal ranges are non-empty and ordered). -/
theorem generateProposalData_timeStart_lt_expiredAt (digest : String → String)
    (env : ProposalGenEnv) (db : Db) (params : GenerateProposalParams)
    (currentTime tS tE : ℚ)
    (hnow : 2200 ≤ currentTime)
    (hS : IsLodashRandom (timeStartBounds params.generatePastProposal currentTime).1
      (timeStartBounds params.generatePastProposal currentTime).2 tS)
    (hE : IsLodashRandom (timeEndBounds params.generatePastProposal currentTime).1
      (timeEndBounds params.generatePastProposal currentTime).2 tE) :
    (generateProposalData digest env db params tS tE).timeStart
      < (generateProposalData digest env db params tS tE).expiredAt := by
  have hts : (generateProposalData digest env db params tS tE).timeStart = tS := rfl
  have hte : (generateProposalData digest env db params tS tE).expiredAt = tE := rfl
  rw [hts, hte]
  obtain ⟨hS1, hS2⟩ := hS
  obtain ⟨hE1, hE2⟩ := hE
  cases hp : params.generatePastProposal with
  | false =>
    simp [hp, timeStartBounds, timeEndBounds] at hS2 hE1
    rcases hS2 with h1 | h1 <;> rcases hE1 with h2 | h2 <;> linarith
  | true =>
    simp [hp, timeStartBounds, timeEndBounds] at hS2 hE1
    rcases hS2 with h1 | h1 <;> rcases hE1 with h2 | h2 <;> linarith

/-- The Faker texts used by the concrete proposal run. -/
def wProposalEnv : ProposalGenEnv := ⟨"four words of text", "forty words of text"⟩

/-- Concrete past-proposal generation parameters. -/
def wProposalParams : GenerateProposalParams :=
  { generateListingItemTemplate := false, generateListingItem := false
    listingItemHash := none, generatePastProposal := true, voteCount := 0
    submitter := none }

/-- Witness for C10: a concrete past proposal at epoch time 10000 with samples
3 and 6000 has `timeStart < expiredAt`. -/
theorem generateProposalData_timeStart_lt_expiredAt_witness :
    (generateProposalData (fun s => s) wProposalEnv wDb wProposalParams 3 6000).timeStart
      < (generateProposalData (fun s => s) wProposalEnv wDb wProposalParams 3 6000).expiredAt :=
  generateProposalData_timeStart_lt_expiredAt (fun s => s) wProposalEnv wDb wProposalParams
    10000 3 6000 (by norm_num)
    (by constructor <;> norm_num [wProposalParams, timeStartBounds])
    (by constructor <;> norm_num [wProposalParams, timeEndBounds])

/-! ## The behavior of CoreRpcService.call (C6) -/

/-- The JSON-RPC body of a successful daemon response, with the customary
`error: null` member. -/
def wRpcContent : String := "\x7b\"result\":5,\"error\":null,\"id\":1\x7d"

/-- The parsed value of `wRpcContent`. -/
def wRpcJson : JsVal :=
  .obj (.cons "result" (.num 5) (.cons "error" .null (.cons "id" (.num 1) .nil)))

/-- A concrete instance of `JSON.parse` agreeing with the JavaScript function
at the only inputs the surrounding theorems apply it to: the well-formed body
`wRpcContent` parses to `wRpcJson`, and the non-JSON text `nonsense` raises a
`SyntaxError`. -/
def jsonParseStub (s : String) : Except JsError JsVal :=
  if s = wRpcContent then .ok wRpcJson
  else .error ⟨"SyntaxError", "Unexpected token"⟩

/-- Counterexample to C6 as stated.  First conjunct: a 200 response whose
JSON-RPC body contains an `error` member (with the customary `null` value)
makes `call` return the `result` normally instead of throwing an
`InternalServerException`, refuting "throws an InternalServerException if and
only if the JSON-RPC response contains an error member".  Second conjunct: a
non-200 response whose content does not parse as JSON makes `call` throw an
`InternalServerException`, refuting "throws an HttpException if and only if
the HTTP status is not 200". -/
theorem call_claim_counterexample :
    (jsonParseStub wRpcContent = .ok wRpcJson ∧
      wRpcJson.hasMember "error" = true ∧
      call jsonParseStub (.success ⟨200, "OK", wRpcContent⟩) = .ok (.num 5)) ∧
    ((500 : Int) ≠ 200 ∧
      call jsonParseStub (.success ⟨500, "Internal Server Error", "nonsense"⟩)
        = .internalEx [.str "SyntaxError", .str "Unexpected token"]) :=
  ⟨⟨rfl, rfl, rfl⟩, by decide, rfl⟩

/-- C6 (amended).  Full characterization of `call`: it returns exactly the
JSON-RPC `result` member when the status is 200, the content parses and the
`error` member is absent or falsy; it throws `HttpException` on a non-200
status whose content is empty or parses as JSON; every other failing case
(transport failure, unparseable content at any status, a truthy `error`
member) throws `InternalServerException`; and it never returns normally
outside the first case. -/
theorem call_behavior (parse : String → Except JsError JsVal) (o : WebOutcome) :
    (∀ e, o = .failure e →
      call parse o = .internalEx [.str e.name, .str e.message]) ∧
    (∀ r, o = .success r → r.statusCode = 200 →
      (∀ j, parse r.content = .ok j →
        ((j.getField "error").truthy = false → call parse o = .ok (j.getField "result")) ∧
        ((j.getField "error").truthy = true →
          call parse o = .internalEx [(j.getField "error").getField "code",
            (j.getField "error").getField "message"])) ∧
      (∀ e, parse r.content = .error e →
        call parse o = .internalEx [.str e.name, .str e.message])) ∧
    (∀ r, o = .success r → r.statusCode ≠ 200 →
      (r.content = "" → call parse o = .httpEx r.statusCode (Sum.inr r.statusMessage)) ∧
      (∀ j, r.content ≠ "" → parse r.content = .ok j →
        call parse o = .httpEx r.statusCode (Sum.inl j)) ∧
      (∀ e, r.content ≠ "" → parse r.content = .error e →
        call parse o = .internalEx [.str e.name, .str e.message])) ∧
    ((call parse o).isHttpEx = true → ∃ r, o = .success r ∧ r.statusCode ≠ 200) ∧
    ((call parse o).isOk = true → ∃ r j, o = .success r ∧ r.statusCode = 200 ∧
      parse r.content = .ok j ∧ (j.getField "error").truthy = false ∧
      call parse o = .ok (j.getField "result")) := by
  refine ⟨?_, ?_, ?_, ?_, ?_⟩
  · intro e he
    subst he
    rfl
  · intro r hr h200
    subst hr
    constructor
    · intro j hj
      constructor
      · intro hfalsy
        simp [call, h200, hj, hfalsy]
      · intro htruthy
        simp [call, h200, hj, htruthy]
    · intro e he
      simp [call, h200, he]
  · intro r hr hne
    subst hr
    refine ⟨?_, ?_, ?_⟩
    · intro hempty
      simp [call, hne, hempty]
    · intro j hcontent hj
      simp [call, hne, hcontent, hj]
    · intro e hcontent he
      simp [call, hne, hcontent, he]
  · intro hhttp
    cases o with
    | failure e => simp [call, CallResult.isHttpEx] at hhttp
    | success r =>
      refine ⟨r, rfl, ?_⟩
      intro h200
      simp only [call, h200] at hhttp
      rcases hp : parse r.content with e | j
      · simp [hp, CallResult.isHttpEx] at hhttp
      · simp only [hp] at hhttp
        by_cases ht : (j.getField "error").truthy = true
        · simp [ht, CallResult.isHttpEx] at hhttp
        · simp [ht, CallResult.isHttpEx] at hhttp
  · intro hok
    cases o with
    | failure e => simp [call, CallResult.isOk] at hok
    | success r =>
      by_cases h200 : r.statusCode = 200
      · rcases hp : parse r.content with e | j
        · simp [call, h200, hp, CallResult.isOk] at hok
        · by_cases ht : (j.getField "error").truthy = true
          · simp [call, h200, hp, ht, CallResult.isOk] at hok
          · refine ⟨r, j, rfl, h200, hp, by simpa using ht, ?_⟩
            simp [call, h200, hp, ht]
      · by_cases hc : r.content = ""
        · simp [call, h200, hc, CallResult.isOk] at hok
        · rcases hp : parse r.content with e | j
          · simp [call, h200, hc, hp, CallResult.isOk] at hok
          · simp [call, h200, hc, hp, CallResult.isOk] at hok

/-- Witness for C6 (amended) on the concrete well-formed 200 response. -/
theorem call_behavior_witness :
    call jsonParseStub (.success ⟨200, "OK", wRpcContent⟩) = .ok (.num 5) :=
  (((call_behavior jsonParseStub (.success ⟨200, "OK", wRpcContent⟩)).2.1
    ⟨200, "OK", wRpcContent⟩ rfl rfl).1 wRpcJson rfl).1 rfl

/-! ## Helper lemmas for the order generation pipeline (C4) -/

/-- One template iteration never touches the bids table. -/
theorem bids_generateListingItemTemplateOne (digest : String → String)
    (env : TemplateGenEnv) (db : Db) (params : GenerateListingItemTemplateParams)
    (now : Nat) :
    (generateListingItemTemplateOne digest env db params now).2.bids = db.bids := by
  by_cases h : params.generateListingItem <;>
    simp [generateListingItemTemplateOne, h, listingItemServiceCreate,
      listingItemTemplateServiceCreate]

/-- One template iteration only advances the id counter. -/
theorem nextId_le_generateListingItemTemplateOne (digest : String → String)
    (env : TemplateGenEnv) (db : Db) (params : GenerateListingItemTemplateParams)
    (now : Nat) :
    db.nextId ≤ (generateListingItemTemplateOne digest env db params now).2.nextId := by
  by_cases h : params.generateListingItem <;>
    simp [generateListingItemTemplateOne, h, listingItemServiceCreate,
      listingItemTemplateServiceCreate] <;> omega

/-- The template loop never touches the bids table. -/
theorem bids_generateListingItemTemplates (digest : String → String)
    (envs : Nat → TemplateGenEnv) (params : GenerateListingItemTemplateParams)
    (now : Nat) :
    ∀ (n : Nat) (db : Db),
      (generateListingItemTemplates digest envs db n params now).2.bids = db.bids := by
  intro n
  induction n with
  | zero => intro db; rfl
  | succ k ih =>
    intro db
    simp only [generateListingItemTemplates]
    rw [ih, bids_generateListingItemTemplateOne]

/-- The template loop only advances the id counter. -/
theorem nextId_le_generateListingItemTemplates (digest : String → String)
    (envs : Nat → TemplateGenEnv) (params : GenerateListingItemTemplateParams)
    (now : Nat) :
    ∀ (n : Nat) (db : Db),
      db.nextId ≤ (generateListingItemTemplates digest envs db n params now).2.nextId := by
  intro n
  induction n with
  | zero => intro db; exact le_rfl
  | succ k ih =>
    intro db
    simp only [generateListingItemTemplates]
    exact le_trans (nextId_le_generateListingItemTemplateOne digest (envs k) db params now)
      (ih _)

/-- The listing item loop never touches the bids table. -/
theorem bids_generateListingItems (digest : String → String)
    (envs : Nat → ListingGenEnv) (params : GenerateListingItemParams) (now : Nat) :
    ∀ (n : Nat) (db : Db),
      (generateListingItems digest envs db n params now).2.bids = db.bids := by
  intro n
  induction n with
  | zero => intro db; rfl
  | succ k ih =>
    intro db
    simp only [generateListingItems]
    rw [ih]
    simp [listingItemServiceCreate]

/-- The listing item loop only advances the id counter. -/
theorem nextId_le_generateListingItems (digest : String → String)
    (envs : Nat → ListingGenEnv) (params : GenerateListingItemParams) (now : Nat) :
    ∀ (n : Nat) (db : Db),
      db.nextId ≤ (generateListingItems digest envs db n params now).2.nextId := by
  intro n
  induction n with
  | zero => intro db; exact le_rfl
  | succ k ih =>
    intro db
    simp only [generateListingItems]
    refine le_trans ?_ (ih _)
    simp [listingItemServiceCreate]

/-- The template step of `generateBids` never touches the bids table. -/
theorem bids_generateBidsStepTemplate (digest : String → String) (env : BidsGenEnv)
    (db : Db) (params : GenerateBidParams) (now : Nat) :
    (generateBidsStepTemplate digest env db params now).2.bids = db.bids := by
  have hb := bids_generateListingItemTemplates digest (fun _ => env.templateEnv)
    GenerateListingItemTemplateParams.init now 1 db
  by_cases h : params.generateListingItemTemplate
  · simp only [generateBidsStepTemplate, h, if_true]
    split <;> exact hb
  · simp [generateBidsStepTemplate, h]

/-- The template step only advances the id counter. -/
theorem nextId_le_generateBidsStepTemplate (digest : String → String) (env : BidsGenEnv)
    (db : Db) (params : GenerateBidParams) (now : Nat) :
    db.nextId ≤ (generateBidsStepTemplate digest env db params now).2.nextId := by
  have hb := nextId_le_generateListingItemTemplates digest (fun _ => env.templateEnv)
    GenerateListingItemTemplateParams.init now 1 db
  by_cases h : params.generateListingItemTemplate
  · simp only [generateBidsStepTemplate, h, if_true]
    split <;> exact hb
  · simp [generateBidsStepTemplate, h]

/-- The listing item step of `generateBids` never touches the bids table. -/
theorem bids_generateBidsStepItem (digest : String → String) (env : BidsGenEnv)
    (db : Db) (litp : GenerateListingItemParams) (params : GenerateBidParams)
    (now : Nat) :
    (generateBidsStepItem digest env db litp params now).2.bids = db.bids := by
  have hb := bids_generateListingItems digest (fun _ => env.listingEnv)
    { litp with seller := params.listingItemSeller } now 1 db
  by_cases h : params.generateListingItem
  · simp only [generateBidsStepItem, h, if_true]
    split <;> exact hb
  · simp [generateBidsStepItem, h]

/-- The listing item step only advances the id counter. -/
theorem nextId_le_generateBidsStepItem (digest : String → String) (env : BidsGenEnv)
    (db : Db) (litp : GenerateListingItemParams) (params : GenerateBidParams)
    (now : Nat) :
    db.nextId ≤ (generateBidsStepItem digest env db litp params now).2.nextId := by
  have hb := nextId_le_generateListingItems digest (fun _ => env.listingEnv)
    { litp with seller := params.listingItemSeller } now 1 db
  by_cases h : params.generateListingItem
  · simp only [generateBidsStepItem, h, if_true]
    split <;> exact hb
  · simp [generateBidsStepItem, h]

/-- The listing item step keeps the bid action parameter unchanged. -/
theorem action_generateBidsStepItem (digest : String → String) (env : BidsGenEnv)
    (db : Db) (litp : GenerateListingItemParams) (params : GenerateBidParams)
    (now : Nat) :
    (generateBidsStepItem digest env db litp params now).1.action = params.action := by
  by_cases h : params.generateListingItem
  · simp only [generateBidsStepItem, h, if_true]
    split <;> rfl
  · simp [generateBidsStepItem, h]

/-- The action of a generated bid create request is the requested action, with
`MPA_BID` as the default. -/
theorem action_generateBidData (env : BidGenEnv) (db : Db) (params : GenerateBidParams) :
    (generateBidData env db params).action = params.action.getD .MPA_BID := by
  cases hh : params.listingItemHash with
  | none => simp [generateBidData, hh]
  | some h =>
    cases hfind : listingItemServiceFindOneByHash db h with
    | none => simp [generateBidData, hh, hfind]
    | some li => simp [generateBidData, hh, hfind]

/-- Appending a bid with a fresh id makes it the one `find?` by that id
returns. -/
theorem find_fresh (l : List StoredBid) (b : StoredBid)
    (h : ∀ x ∈ l, x.id ≠ b.id) :
    List.find? (fun x => x.id == b.id) (l ++ [b]) = some b := by
  induction l with
  | nil => simp [List.find?]
  | cons a tl ih =>
    have ha : (a.id == b.id) = false := by
      simpa using h a (List.mem_cons_self a tl)
    simp only [List.cons_append, List.find?_cons, ha]
    exact ih (fun x hx => h x (List.mem_cons_of_mem a hx))

/-- `generateBids` with amount 1 on a well-formed database creates exactly one
bid, whose action is the requested one (`MPA_BID` by default); the new bid is
appended to the bids table and is the one a subsequent primary-key lookup of
its id returns. -/
theorem generateBids_one (digest : String → String) (env : BidsGenEnv) (db : Db)
    (p : GenerateBidParams) (now : Nat) (hwf : db.Wf) :
    ∃ b db2, generateBids digest env db 1 p now = ([b], db2) ∧
      b.action = p.action.getD .MPA_BID ∧
      db2.bids = db.bids ++ [b] ∧
      bidServiceFindOne db2 b.id = some b := by
  unfold generateBids
  set step1 := generateBidsStepTemplate digest env db p now with hstep1
  set step2 := generateBidsStepItem digest env step1.2 step1.1 p now with hstep2
  have hbids2 : step2.2.bids = db.bids := by
    rw [hstep2, bids_generateBidsStepItem, hstep1, bids_generateBidsStepTemplate]
  have hnext2 : db.nextId ≤ step2.2.nextId := by
    rw [hstep2]
    exact le_trans (by rw [hstep1]; exact nextId_le_generateBidsStepTemplate digest env db p now)
      (nextId_le_generateBidsStepItem digest env step1.2 step1.1 p now)
  have haction : step2.1.action = p.action := by
    rw [hstep2, action_generateBidsStepItem]
  set req := generateBidData (env.bidEnvs 0) step2.2 step2.1 with hreq
  set created := bidServiceCreate step2.2 req with hcreated
  refine ⟨created.1, created.2, ?_, ?_, ?_, ?_⟩
  · simp [generateBidsLoop, hcreated, hreq]
  · rw [show created.1.action = req.action from rfl, hreq, action_generateBidData, haction]
  · rw [show created.2.bids = step2.2.bids ++ [created.1] from rfl, hbids2]
  · have hid : created.1.id = step2.2.nextId := rfl
    have hfresh : ∀ x ∈ step2.2.bids, x.id ≠ created.1.id := by
      intro x hx
      rw [hbids2] at hx
      have := hwf x hx
      omega
    have : created.2.bids = step2.2.bids ++ [created.1] := rfl
    unfold bidServiceFindOne
    rw [this]
    exact find_fresh _ _ hfresh

/-- The order-creation loop: as long as the bid the parameters point at is
present, it creates one order per iteration, each built from that bid's order
create request. -/
theorem generateOrdersLoop_spec (factory : StoredBid → OrderCreateRequest)
    (params : GenerateOrderParams) (bid : StoredBid) :
    ∀ (n : Nat) (db : Db), bidServiceFindOne db params.bidId = some bid →
      ∃ orders db2, generateOrdersLoop factory params db n = .ok (orders, db2) ∧
        orders.length = n ∧
        ∀ o ∈ orders, o.req = orderReqFromBid factory params bid := by
  intro n
  induction n with
  | zero => intro db _; exact ⟨[], db, rfl, rfl, by simp⟩
  | succ k ih =>
    intro db hfind
    have hdata : generateOrderData factory db params
        = .ok (orderReqFromBid factory params bid) := by
      simp [generateOrderData, hfind]
    have hfind2 : bidServiceFindOne
        (orderServiceCreate db (orderReqFromBid factory params bid)).2 params.bidId
        = some bid := by
      simpa [bidServiceFindOne, orderServiceCreate] using hfind
    obtain ⟨orders, db2, hloop, hlen, hall⟩ := ih _ hfind2
    refine ⟨(orderServiceCreate db (orderReqFromBid factory params bid)).1 :: orders, db2,
      ?_, by simp [hlen], ?_⟩
    · simp [generateOrdersLoop, hdata, hloop]
    · intro o ho
      rcases List.mem_cons.mp ho with ho | ho
      · subst ho; rfl
      · exact hall o ho

/-- C4.  `generateOrders` performs the multi-step creation of dependent
records: `generateParams.generateBid` makes it first generate exactly one bid
with action `MPA_ACCEPT` and append it to the bids table; otherwise the bid is
looked up by `generateParams.bidId`.  In both cases the parameters end up with
`bidId` equal to the id of that bid, and every order created in the call is
built from it via `OrderFactory.getModelFromBid`. -/
theorem generateOrders_built_from_resolved_bid (digest : String → String)
    (factory : StoredBid → OrderCreateRequest) (env : BidsGenEnv) (db : Db)
    (amount : Nat) (params : GenerateOrderParams) (now : Nat)
    (bid : StoredBid) (db1 : Db) (orders : List StoredOrder)
    (params2 : GenerateOrderParams) (db2 : Db)
    (hwf : db.Wf)
    (hres : resolveOrderBid digest env db params now = .ok (bid, db1))
    (hgen : generateOrders digest factory env db amount params now
      = .ok (orders, params2, db2)) :
    params2 = { params with bidId := bid.id } ∧
    params2.bidId = bid.id ∧
    (params.generateBid = true → bid.action = .MPA_ACCEPT ∧ db1.bids = db.bids ++ [bid]) ∧
    (params.generateBid = false → bidServiceFindOne db params.bidId = some bid ∧ db1 = db) ∧
    orders.length = amount ∧
    ∀ o ∈ orders, o.req = orderReqFromBid factory params2 bid := by
  have hfind1 : bidServiceFindOne db1 bid.id = some bid ∧
      (params.generateBid = true → bid.action = .MPA_ACCEPT ∧ db1.bids = db.bids ++ [bid]) ∧
      (params.generateBid = false →
        bidServiceFindOne db params.bidId = some bid ∧ db1 = db) := by
    by_cases hgb : params.generateBid
    · obtain ⟨b, dbx, hrun, hact, hbids, hfound⟩ := generateBids_one digest env db
        { generateListingItemTemplate := params.generateListingItemTemplate
          generateListingItem := params.generateListingItem
          listingItemHash := none
          action := some .MPA_ACCEPT
          bidder := none
          listingItemSeller := params.listingItemSeller } now hwf
      have hres2 : resolveOrderBid digest env db params now = .ok (b, dbx) := by
        simp only [resolveOrderBid, hgb, if_true]
        rw [hrun]
      rw [hres2] at hres
      simp only [Except.ok.injEq, Prod.mk.injEq] at hres
      obtain ⟨hb, hdb⟩ := hres
      rw [hb] at hact hbids hfound
      rw [hdb] at hbids hfound
      exact ⟨hfound, fun _ => ⟨by simpa using hact, hbids⟩,
        fun hf => absurd hgb (by simp [hf])⟩
    · have hres2 : resolveOrderBid digest env db params now
          = (match bidServiceFindOne db params.bidId with
            | some b => .ok (b, db)
            | none => .error .notFound) := by
        simp only [resolveOrderBid, if_neg hgb]
      cases hf : bidServiceFindOne db params.bidId with
      | none =>
        rw [hf] at hres2
        rw [hres2] at hres
        exact absurd hres (by simp)
      | some b =>
        rw [hf] at hres2
        rw [hres2] at hres
        simp only [Except.ok.injEq, Prod.mk.injEq] at hres
        obtain ⟨hb, hdb⟩ := hres
        rw [hb] at hf
        have hid : bid.id = params.bidId := by
          have hfq : db.bids.find? (fun x => x.id == params.bidId) = some bid := hf
          simpa using List.find?_some hfq
        refine ⟨?_, fun ht => absurd ht (by simpa using hgb),
          fun _ => ⟨by rw [hb], hdb.symm⟩⟩
        rw [← hdb, hid]
        exact hf
  obtain ⟨hfind, htrue, hfalse⟩ := hfind1
  have hgen2 : (match generateOrdersLoop factory { params with bidId := bid.id } db1 amount with
      | .error e => .error e
      | .ok (os, d2) => .ok (os, { params with bidId := bid.id }, d2))
      = Except.ok (orders, params2, db2) := by
    rw [← hgen]
    unfold generateOrders
    rw [hres]
  obtain ⟨os, d2, hloop, hlen, hall⟩ :=
    generateOrdersLoop_spec factory { params with bidId := bid.id } bid amount db1 hfind
  rw [hloop] at hgen2
  simp only [Except.ok.injEq, Prod.mk.injEq] at hgen2
  obtain ⟨hos, hp2, hd2⟩ := hgen2
  subst hos
  subst hd2
  subst hp2
  exact ⟨rfl, rfl, htrue, hfalse, hlen, hall⟩

/-- The environment for the concrete order generation run. -/
def wOrdersEnv : BidsGenEnv :=
  { templateEnv := wTemplateEnv
    listingEnv := ⟨"i", "p", "m", "o", "sellerAddr"⟩
    bidEnvs := fun _ => wBidGenEnv }

/-- A concrete persisted `MPA_ACCEPT` bid. -/
def wAcceptBid : StoredBid :=
  { id := 7, action := .MPA_ACCEPT, bidder := "bidder", listing_item_id := none
    address := wAddress, bidDatas := [] }

/-- A concrete database holding the accepted bid. -/
def wOrdersDb : Db :=
  { defaultProfileId := 1, defaultMarketId := 1, profiles := [⟨1, "profileAddr"⟩]
    listingItemTemplates := [], listingItems := [], bids := [wAcceptBid]
    orders := [], nextId := 8 }

/-- Concrete order generation parameters looking the bid up by id. -/
def wOrderParams : GenerateOrderParams :=
  { generateListingItemTemplate := false, generateListingItem := false
    generateOrderItem := true, generateBid := false, listingItemSeller := none
    bidId := 7 }

/-- The concrete order factory used by the witness run. -/
def wOrderFactory : StoredBid → OrderCreateRequest :=
  fun b => { orderItems := ["orderItem1"], payload := b.bidder }

/-- Witness for C4: a concrete two-order run resolves the bid by id, records
its id in the parameters, and creates two orders. -/
theorem generateOrders_built_from_resolved_bid_witness :
    ∃ orders params2 db2,
      generateOrders (fun s => s) wOrderFactory wOrdersEnv wOrdersDb 2 wOrderParams 1000
        = .ok (orders, params2, db2) ∧
      params2.bidId = 7 ∧ orders.length = 2 := by
  have hgen : ∃ orders params2 db2,
      generateOrders (fun s => s) wOrderFactory wOrdersEnv wOrdersDb 2 wOrderParams 1000
        = .ok (orders, params2, db2) := ⟨_, _, _, rfl⟩
  obtain ⟨orders, params2, db2, hrun⟩ := hgen
  have H := generateOrders_built_from_resolved_bid (fun s => s) wOrderFactory wOrdersEnv
    wOrdersDb 2 wOrderParams 1000 wAcceptBid wOrdersDb orders params2 db2
    (by intro b hb; simp [wOrdersDb, wAcceptBid] at hb; simp [hb, wOrdersDb]) rfl hrun
  exact ⟨orders, params2, db2, hrun, by rw [H.2.1]; rfl, H.2.2.2.2.1⟩

end VpubMarket
